import Mathlib

/-!
Verification development for the aimodbot maubot plugin
(src/aimodbot/bot.py).  The Python source is shallowly embedded below:

* Python values coming out of json.loads are modelled by `PyJson`;
  Python truthiness, the mapping-subscript operation (raising KeyError),
  the `.get` method (raising AttributeError on non-dict receivers) and
  the `>=` comparison against an int are modelled by `truthy`,
  `pySubscript`, `pyGet` and `pyGeInt`, each returning `Except PyError _`
  where the source can raise.
* The external classifier is an oracle: a function `Nat -> ClassifierResponse`
  giving, for each attempt index, the HTTP status, the raw body text, the
  extracted assistant text, and what json.loads would yield on that text
  (`none` models json.JSONDecodeError).
* Room state (power levels, bot membership) is a `RoomEnv` that both
  power-level fetches inside one event handler read; room state is taken
  to be stable while a single event is being handled.
* Effects sent to the transport (mark-read, redaction, replies, notices)
  are collected in an `Action` trace; an uncaught Python exception
  propagating out of the handler is recorded in `PipeResult.error`.
-/

namespace AIMod

/-- Python values as produced by json.loads: null, bool, int, string,
array, object.  (Floats do not occur in any scenario considered here.) -/
inductive PyJson where
  | null
  | boolean (b : Bool)
  | int (n : Int)
  | str (s : String)
  | arr (xs : List PyJson)
  | obj (kvs : List (String × PyJson))

/-- Python exceptions that the embedded code can raise. -/
inductive PyError where
  | keyError (k : String)
  | attributeError (a : String)
  | typeError
deriving DecidableEq, Repr

/-- First-match association-list lookup, as used for Python dict access. -/
def lookupKey : List (String × PyJson) → String → Option PyJson
  | [], _ => none
  | (a, b) :: t, k => if a == k then some b else lookupKey t k

/-- Python truthiness of a json.loads result (`if not score`). -/
def truthy : PyJson → Bool
  | .null => false
  | .boolean b => b
  | .int n => n != 0
  | .str s => s != ""
  | .arr xs => !xs.isEmpty
  | .obj kvs => !kvs.isEmpty

/-- Python `v[k]` for a string key: dict lookup raising KeyError when the
key is absent; every non-dict value raises TypeError on a string subscript. -/
def pySubscript (v : PyJson) (k : String) : Except PyError PyJson :=
  match v with
  | .obj kvs =>
    match lookupKey kvs k with
    | some x => .ok x
    | none => .error (.keyError k)
  | _ => .error .typeError

/-- Python `v.get(k, defaultValue)`: only dicts have a `.get` attribute; any
other receiver raises AttributeError. -/
def pyGet (v : PyJson) (k : String) (d : PyJson) : Except PyError PyJson :=
  match v with
  | .obj kvs => .ok ((lookupKey kvs k).getD d)
  | _ => .error (.attributeError "get")

/-- Python `v >= t` for an int `t`: ints compare numerically, bools compare
as 0/1, everything else raises TypeError. -/
def pyGeInt (v : PyJson) (t : Int) : Except PyError Bool :=
  match v with
  | .int n => .ok (decide (t ≤ n))
  | .boolean b => .ok (decide (t ≤ (if b then (1 : Int) else 0)))
  | _ => .error .typeError

/-- Whether a value is a Python dict (a JSON object). -/
def isObj : PyJson → Bool
  | .obj _ => true
  | _ => false

/-- Whether a value is a dict carrying the given key. -/
def hasKey (v : PyJson) (k : String) : Bool :=
  match v with
  | .obj kvs => (lookupKey kvs k).isSome
  | _ => false

/-- Python `str(v)` for the values that reach an f-string in the source.
Only the `str` and `int` cases are ever exercised by the scenarios below;
the container renderings are simplified placeholders. -/
def pyStrRender : PyJson → String
  | .str s => s
  | .int n => toString n
  | .boolean true => "True"
  | .boolean false => "False"
  | .null => "None"
  | .arr _ => "<list>"
  | .obj _ => "<dict>"

/-- Does the first list start the second one (character lists)? -/
def listStartsWith : List Char → List Char → Bool
  | [], _ => true
  | _ :: _, [] => false
  | a :: as, b :: bs => a == b && listStartsWith as bs

/-- Substring test on character lists. -/
def listHasSub (needle : List Char) : List Char → Bool
  | [] => listStartsWith needle []
  | c :: t => listStartsWith needle (c :: t) || listHasSub needle t

/-- Python `needle in hay` on strings. -/
def containsSub (hay needle : String) : Bool :=
  listHasSub needle.data hay.data

/-- Python `s.lower()`: character-wise lowering (the texts involved are
ASCII, where Char.toLower agrees with the Python method). -/
def lowerAscii (s : String) : String :=
  String.mk (s.data.map Char.toLower)

/-- The apostrophe character, used to spell the refusal phrases. -/
def apos : String := String.mk [Char.ofNat 39]

/-- AIModerator.REFUSAL_PHRASES from bot.py lines 35-42. -/
def REFUSAL_PHRASES : List String :=
  ["can" ++ apos ++ "t assist",
   "unable to assist",
   "can" ++ apos ++ "t help",
   "unable to help",
   "i" ++ apos ++ "m unable to",
   "i can" ++ apos ++ "t"]

/-- bot.py line 138: `any(phrase in resp_content.lower() for phrase in REFUSAL_PHRASES)`. -/
def refusalHit (respContent : String) : Bool :=
  REFUSAL_PHRASES.any (fun phrase => containsSub (lowerAscii respContent) phrase)

/-- bot.py lines 140-144: the assessment synthesized when the classifier
output fails to parse but contains a refusal phrase. -/
def refusalAssessment (respContent : String) : PyJson :=
  .obj [("max", .int 10),
        ("comment", .str "LLM indicated content blocking"),
        ("analysis", .str respContent),
        ("categories", .obj [("unsafe", .int 10)])]

/-- One classifier HTTP exchange, as the oracle for one loop attempt:
`status` is the HTTP status, `bodyText` is `await response.text()`,
`content` is `response_json["choices"][0]["message"]["content"]`, and
`parsed` is what `json.loads(content)` yields (`none` on JSONDecodeError). -/
structure ClassifierResponse where
  status : Nat
  bodyText : String
  content : String
  parsed : Option PyJson

/-- bot.py lines 123-149: the retry loop of ai_analyze.  `resp i` is the
response to the i-th HTTP call; the result pairs the returned Python value
(None modelled as `.null`, the error string as `.str`) with the number of
HTTP calls made.  The loop runs `fuel` more attempts starting at index `i`. -/
def scoreFrom (resp : Nat → ClassifierResponse) : Nat → Nat → PyJson × Nat
  | 0, _ => (.null, 0)
  | fuel + 1, i =>
    let r := resp i
    if r.status != 200 then
      (.str ("Error: " ++ r.bodyText), 1)
    else
      match r.parsed with
      | some v => (v, 1)
      | none =>
        if refusalHit r.content then
          (refusalAssessment r.content, 1)
        else
          let rest := scoreFrom resp fuel (i + 1)
          (rest.1, rest.2 + 1)

/-- The message kinds m.image / m.video / m.sticker of bot.py line 87. -/
def msgtypeIsMediaKind (t : String) : Bool :=
  t == "m.image" || t == "m.video" || t == "m.sticker"

/-- The live plugin configuration (self.config).  Fields that maubot may
leave unset are Options; the source applies `or` / `.get` defaults. -/
structure Config where
  admins : Option (List String)
  uncensor_pl : Option Int
  moderate_files : Bool
  ai_mod_threshold : Int
  enable_join_notice : Bool
  custom_notice_text : Option String
  ai_mod_api_endpoint : String
  enable_msgtype_filter : Option Bool
  allowed_msgtypes : Option (List String)
  allowed_mimetypes : Option (List String)

/-- The instance-field snapshot taken by `start` (bot.py lines 246-266). -/
structure Snapshot where
  admins : List String
  uncensor_pl : Int
  enable_join_notice : Bool
  custom_notice_text : Option String
  ai_mod_api_endpoint : String
  moderate_files : Bool
  ai_mod_threshold : Int
  enable_msgtype_filter : Bool
  allowed_msgtypes : List String
  allowed_mimetypes : List String

/-- bot.py lines 252-263: `start` copies the configuration into instance
fields, with `or` fallbacks for admins/uncensor_pl and `.get` defaults for
the msgtype-filter settings. -/
def mkSnapshot (c : Config) : Snapshot :=
  { admins := c.admins.getD []
    uncensor_pl := c.uncensor_pl.getD 0
    enable_join_notice := c.enable_join_notice
    custom_notice_text := c.custom_notice_text
    ai_mod_api_endpoint := c.ai_mod_api_endpoint
    moderate_files := c.moderate_files
    ai_mod_threshold := c.ai_mod_threshold
    enable_msgtype_filter := c.enable_msgtype_filter.getD false
    allowed_msgtypes := c.allowed_msgtypes.getD ["m.text", "m.image"]
    allowed_mimetypes :=
      c.allowed_mimetypes.getD
        ["image/jpeg", "image/png", "image/webp", "image/gif"] }

/-- An inbound room message event, as seen by analyze_message. -/
structure MsgEvent where
  room : String
  sender : String
  eventId : String
  msgtype : String
  isMediaContent : Bool
  mimetype : Option String
  body : String

/-- bot.py lines 52-149 (ai_analyze): the media gates before the loop, then
the retry loop.  `live` is self.config (ai_analyze reads moderate_files from
the live config, line 83); `mediaFetchOk` tells whether the media download
and base64 encoding succeed (line 106 catches any failure and returns None). -/
def ai_analyze (live : Config) (evt : MsgEvent) (mediaFetchOk : Bool)
    (resp : Nat → ClassifierResponse) : PyJson × Nat :=
  if evt.isMediaContent && !live.moderate_files then (.null, 0)
  else if msgtypeIsMediaKind evt.msgtype && !mediaFetchOk then (.null, 0)
  else scoreFrom resp 3 0

/-- bot.py lines 151-153 (flag_score): `rating["max"] >= config threshold`.
The Python function returns True or (implicitly) None; since every caller
would only truth-test the result, the None outcome is modelled as `false`. -/
def flag_score (rating : PyJson) (thresholdLive : Int) : Except PyError Bool :=
  match pySubscript rating "max" with
  | .error e => .error e
  | .ok v => pyGeInt v thresholdLive

/-- The m.room.power_levels state of a room, with the fields the source
reads: the per-user levels, users_default, redact, state_default. -/
structure PowerLevels where
  users : List (String × Int)
  users_default : Int
  redact : Int
  state_default : Int

/-- mautrix get_user_level: `users.get(user_id, users_default)`. -/
def PowerLevels.get_user_level (pl : PowerLevels) (u : String) : Int :=
  match pl.users.lookup u with
  | some l => l
  | none => pl.users_default

/-- The level of the moderator account itself (bot.py line 175):
`power_levels.users.get(self.client.mxid, power_levels.users_default)`. -/
def botLevel (pl : PowerLevels) (mxid : String) : Int :=
  pl.get_user_level mxid

/-- Per-capability detail reported by check_bot_permissions. -/
structure PermDetail where
  has_permission : Bool
  required_level : Int
  bot_level : Int

/-- bot.py lines 178-181: the required level per capability name. -/
def permission_requirements (pl : PowerLevels) : List (String × Int) :=
  [("redact", pl.redact), ("state", pl.state_default)]

/-- Python `", ".join xs`. -/
def joinComma : List String → String
  | [] => ""
  | [s] => s
  | s :: t => s ++ ", " ++ joinComma t

/-- bot.py lines 155-209 (check_bot_permissions, normal path): membership
check, power-level fetch, per-capability comparison, basic-access fallback
when no capability is requested.  The enclosing try/except that turns a
transport failure into `(False, msg, dict())` is modelled separately in
`runPermCheck` via `RoomEnv.permCheckRaises`. -/
def check_bot_permissions (member : Bool) (pl : PowerLevels) (mxid : String)
    (required : List String) : Bool × String × List (String × PermDetail) :=
  if !member then (false, "Bot is not a member of this room", [])
  else
    let bot_level := botLevel pl mxid
    let status := required.filterMap (fun p =>
      match (permission_requirements pl).lookup p with
      | some req =>
        some (p, PermDetail.mk (decide (req ≤ bot_level)) req bot_level)
      | none => none)
    if required.isEmpty then
      if bot_level < 50 then
        (false,
         "Bot does not have sufficient power level (needs at least moderator level)",
         status)
      else (true, "", status)
    else
      let missing := (status.filter (fun q => !q.2.has_permission)).map (·.1)
      if !missing.isEmpty then
        (false, "Bot is missing required permissions: " ++ joinComma missing,
         status)
      else (true, "", status)

/-- bot.py lines 218-244 (is_message_allowed): msgtype allow-list check
against the live configuration (config.get with defaults), then the
mimetype check for m.image media; an absent or empty mimetype is allowed. -/
def is_message_allowed (live : Config) (evt : MsgEvent) : Bool :=
  let allowed_msgtypes := live.allowed_msgtypes.getD ["m.text", "m.image"]
  let allowed_mimetypes :=
    live.allowed_mimetypes.getD
      ["image/jpeg", "image/png", "image/webp", "image/gif"]
  if !(allowed_msgtypes.contains evt.msgtype) then false
  else if evt.msgtype == "m.image" && evt.isMediaContent then
    match evt.mimetype with
    | some m => if m != "" && !(allowed_mimetypes.contains m) then false else true
    | none => true
  else true

/-- Effects the handler sends to the transport layer. -/
inductive Action where
  | markRead
  | scorerCall
  | redact (room eventId reason : String)
  | reply (text : String)
  | respond (text : String)
  | notice (room text : String)
deriving DecidableEq, Repr

/-- Is this action a redaction (message deletion)? -/
def Action.isRedact : Action → Bool
  | .redact _ _ _ => true
  | _ => false

/-- Is this action a reply to the event? -/
def Action.isReply : Action → Bool
  | .reply _ => true
  | _ => false

/-- Is this action an invocation of the content scorer? -/
def Action.isScorerCall : Action → Bool
  | .scorerCall => true
  | _ => false

/-- Outcome of one run of analyze_message: the trace of transport effects,
and the uncaught Python exception if one propagates out of the handler. -/
structure PipeResult where
  actions : List Action
  error : Option PyError
deriving DecidableEq, Repr

/-- The moderator plugin state an event handler sees: the `start` snapshot,
the live configuration, and the bot account id. -/
structure BotState where
  snap : Snapshot
  live : Config
  mxid : String

/-- Room-and-transport environment for handling one event.  The same
power-level state is returned by every fetch within the event (room state
is taken as stable while one event is handled); `permCheckRaises` models a
transport exception inside check_bot_permissions (its outer try/except). -/
structure RoomEnv where
  pl : PowerLevels
  botIsMember : Bool
  permCheckRaises : Bool
  permCheckErrText : String

/-- check_bot_permissions as called with an event argument: the exception
path (bot.py lines 211-216) responds to the event with the error text and
yields `(False, msg, dict())`; otherwise the normal path runs. -/
def runPermCheck (env : RoomEnv) (mxid : String) (required : List String) :
    (Bool × String × List (String × PermDetail)) × List Action :=
  if env.permCheckRaises then
    let msg := "Failed to check bot permissions: " ++ env.permCheckErrText
    ((false, msg, []), [Action.respond msg])
  else
    (check_bot_permissions env.botIsMember env.pl mxid required, [])

/-- bot.py lines 297-299: the privileged-sender bypass test (snapshot
admins, snapshot uncensor_pl, the bot itself). -/
def bypassCheck (snap : Snapshot) (mxid sender : String) (lvl : Int) : Bool :=
  snap.admins.contains sender
  || decide (snap.uncensor_pl ≤ lvl)
  || sender == mxid

/-- bot.py lines 334-336: the scoring-eligibility test (the negation of the
bypass, re-evaluated on the second power-level fetch). -/
def scoreGate (snap : Snapshot) (mxid sender : String) (lvl : Int) : Bool :=
  !(snap.admins.contains sender)
  && decide (lvl < snap.uncensor_pl)
  && sender != mxid

/-- bot.py lines 307-315: the redaction reason used by the msgtype filter. -/
def filterReason (evt : MsgEvent) : String :=
  let base := "Disallowed message type: " ++ evt.msgtype
  if evt.msgtype == "m.image" && evt.isMediaContent then
    match evt.mimetype with
    | some m => if m == "" then base else base ++ " (" ++ m ++ ")"
    | none => base
  else base

/-- bot.py lines 302-321: enforcement of the msgtype filter — check the
redact capability, delete with a descriptive reason when it is held,
otherwise only log (no room-visible effect). -/
def filterEnforce (st : BotState) (env : RoomEnv) (evt : MsgEvent) : PipeResult :=
  let pc := runPermCheck env st.mxid ["redact"]
  if pc.1.1 then
    PipeResult.mk (pc.2 ++ [Action.redact evt.room evt.eventId (filterReason evt)]) none
  else
    PipeResult.mk pc.2 none

/-- bot.py lines 365-367: the reply sent when the score is over threshold
but the bot lacks the redact capability. -/
def replyText (comment : String) (redact_pl bot_pl : Int) : String :=
  "I would have redacted this message (" ++ comment
    ++ "), but I need a power level of " ++ toString redact_pl
    ++ " or higher to do so (currently " ++ toString bot_pl ++ ")."

/-- bot.py lines 347-367: what analyze_message does with the value returned
by ai_analyze.  `acts` is the action trace accumulated so far, `has_perms`
and `perm_details` come from the earlier capability check.  Mirrors the
source line by line: the falsy test, the two `.get` calls in the debug log,
the `score["max"] >= threshold` comparison, then either the redaction
(whose try block swallows any failure, including a KeyError from
`score["comment"]`) or the explanatory reply (whose subscripts are not
guarded and propagate). -/
def handleScore (st : BotState) (acts : List Action) (has_perms : Bool)
    (perm_details : List (String × PermDetail)) (score : PyJson)
    (evt : MsgEvent) : PipeResult :=
  if !(truthy score) then PipeResult.mk acts none
  else
    match pyGet score "comment" (.str "") with
    | .error e => PipeResult.mk acts (some e)
    | .ok _ =>
      match pyGet score "analysis" (.str "") with
      | .error e => PipeResult.mk acts (some e)
      | .ok _ =>
        match pySubscript score "max" with
        | .error e => PipeResult.mk acts (some e)
        | .ok mv =>
          match pyGeInt mv st.snap.ai_mod_threshold with
          | .error e => PipeResult.mk acts (some e)
          | .ok flagged =>
            if flagged then
              if has_perms then
                match pySubscript score "comment" with
                | .error _ => PipeResult.mk acts none
                | .ok c =>
                  PipeResult.mk
                    (acts ++ [Action.redact evt.room evt.eventId (pyStrRender c)])
                    none
              else
                match perm_details.lookup "redact" with
                | none => PipeResult.mk acts (some (.keyError "redact"))
                | some d =>
                  match pySubscript score "comment" with
                  | .error e => PipeResult.mk acts (some e)
                  | .ok c =>
                    PipeResult.mk
                      (acts ++ [Action.reply
                        (replyText (pyStrRender c) d.required_level d.bot_level)])
                      none
            else PipeResult.mk acts none

/-- bot.py lines 337-367: the scoring stage — eager capability check for
redact, mark-read, the scorer call, then `handleScore`. -/
def scoringStage (st : BotState) (env : RoomEnv) (evt : MsgEvent)
    (mediaFetchOk : Bool) (resp : Nat → ClassifierResponse) : PipeResult :=
  let pc := runPermCheck env st.mxid ["redact"]
  let acts := pc.2 ++ [Action.markRead, Action.scorerCall]
  let score := (ai_analyze st.live evt mediaFetchOk resp).1
  handleScore st acts pc.1.1 pc.1.2.2 score evt

/-- bot.py lines 288-367 (analyze_message): bypass test, msgtype filter,
media opt-out, second privilege fetch and eligibility gate, scoring stage. -/
def analyze_message (st : BotState) (env : RoomEnv) (evt : MsgEvent)
    (mediaFetchOk : Bool) (resp : Nat → ClassifierResponse) : PipeResult :=
  let lvl := env.pl.get_user_level evt.sender
  if !(bypassCheck st.snap st.mxid evt.sender lvl)
      && st.snap.enable_msgtype_filter
      && !(is_message_allowed st.live evt) then
    filterEnforce st env evt
  else if evt.isMediaContent && !st.snap.moderate_files then
    PipeResult.mk [] none
  else
    let lvl2 := env.pl.get_user_level evt.sender
    if scoreGate st.snap st.mxid evt.sender lvl2 then
      scoringStage st env evt mediaFetchOk resp
    else PipeResult.mk [] none

/-- A membership-join event, as seen by newjoin. -/
structure JoinEvent where
  room : String
  sender : String

/-- bot.py lines 279-285: the default join notice built around the
configured endpoint. -/
def defaultNotice (endpoint : String) : String :=
  "<em>IMPORTANT: this room is under moderation by machine-learning. "
    ++ "All messages may be sent for analysis to " ++ endpoint
    ++ ". This conversation is not as private as you may think!</em>"

/-- bot.py line 279: `self.custom_notice_text or (default)`. -/
def noticeText (snap : Snapshot) : String :=
  match snap.custom_notice_text with
  | some s => if s == "" then defaultNotice snap.ai_mod_api_endpoint else s
  | none => defaultNotice snap.ai_mod_api_endpoint

/-- bot.py lines 268-286 (newjoin): dedup on the (room, sender) key against
the in-memory welcomed_joins set, record the key on first sight, and send
the notice when join notices are enabled.  Returns the updated key set and
the actions sent. -/
def newjoin (snap : Snapshot) (welcomed : List (String × String))
    (evt : JoinEvent) : List (String × String) × List Action :=
  let key := (evt.room, evt.sender)
  if key ∈ welcomed then (welcomed, [])
  else
    let w2 := key :: welcomed
    if snap.enable_join_notice then
      (w2, [Action.notice evt.room (noticeText snap)])
    else (w2, [])

/-- Number of join notices triggered by a sequence of join events whose
key equals `k`, starting from the welcomed-key set `welcomed`. -/
def joinNoticeCount (snap : Snapshot) (welcomed : List (String × String)) :
    List JoinEvent → String × String → Nat
  | [], _ => 0
  | e :: es, k =>
    let r := newjoin snap welcomed e
    (if (e.room, e.sender) = k ∧ r.2 ≠ [] then 1 else 0)
      + joinNoticeCount snap r.1 es k

/-- A classifier response with HTTP status 200 whose body fails JSON
parsing and carries no refusal phrase. -/
def parseFailNoRefusal (r : ClassifierResponse) : Prop :=
  r.status = 200 ∧ r.parsed = none ∧ refusalHit r.content = false

/-! ### Concrete fixtures for witnesses and counterexamples -/

/-- A configuration with one admin, uncensor level 50, threshold 8,
file moderation on, msgtype filtering off, join notice on. -/
def cfg0 : Config :=
  { admins := some ["@admin:hs"]
    uncensor_pl := some 50
    moderate_files := true
    ai_mod_threshold := 8
    enable_join_notice := true
    custom_notice_text := none
    ai_mod_api_endpoint := "https://api.example/v1"
    enable_msgtype_filter := some false
    allowed_msgtypes := none
    allowed_mimetypes := none }

/-- The same configuration after a reload that adds `@u:hs` to the admins. -/
def cfgReload : Config :=
  { cfg0 with admins := some ["@admin:hs", "@u:hs"] }

/-- Bot state whose snapshot and live configuration are both `cfg0`. -/
def stA : BotState := { snap := mkSnapshot cfg0, live := cfg0, mxid := "@mod:hs" }

/-- Bot state whose snapshot was taken from `cfg0` but whose live
configuration has been reloaded to `cfgReload`. -/
def stStale : BotState :=
  { snap := mkSnapshot cfg0, live := cfgReload, mxid := "@mod:hs" }

/-- Bot state whose snapshot was taken from the reloaded configuration. -/
def stFresh : BotState :=
  { snap := mkSnapshot cfgReload, live := cfgReload, mxid := "@mod:hs" }

/-- A room where the bot has level 0 and redaction requires level 50. -/
def envA : RoomEnv :=
  { pl := { users := [("@mod:hs", 0)], users_default := 0
            redact := 50, state_default := 50 }
    botIsMember := true
    permCheckRaises := false
    permCheckErrText := "" }

/-- A room where the bot has level 100 and redaction requires level 50. -/
def envB : RoomEnv :=
  { pl := { users := [("@mod:hs", 100)], users_default := 0
            redact := 50, state_default := 50 }
    botIsMember := true
    permCheckRaises := false
    permCheckErrText := "" }

/-- A plain text message from the unprivileged user `@u:hs`. -/
def evtText : MsgEvent :=
  { room := "!r:hs", sender := "@u:hs", eventId := "$e1", msgtype := "m.text"
    isMediaContent := false, mimetype := none, body := "hello" }

/-- A plain text message from the configured admin. -/
def evtAdmin : MsgEvent :=
  { evtText with sender := "@admin:hs" }

/-- Classifier oracle: HTTP 500 with body "boom" on every attempt. -/
def resp500 : Nat → ClassifierResponse :=
  fun _ => { status := 500, bodyText := "boom", content := "", parsed := none }

/-- Classifier oracle: HTTP 201 whose assistant text parses to the empty
object. -/
def resp201 : Nat → ClassifierResponse :=
  fun _ => { status := 201, bodyText := "created", content := "\x7b\x7d"
             parsed := some (.obj []) }

/-- Classifier oracle: HTTP 200 with unparseable, non-refusal text on
every attempt. -/
def respFail : Nat → ClassifierResponse :=
  fun _ => { status := 200, bodyText := "", content := "not json", parsed := none }

/-- Classifier oracle: HTTP 200 with unparseable text containing a refusal
phrase. -/
def respRefuse : Nat → ClassifierResponse :=
  fun _ => { status := 200, bodyText := ""
             content := "Sorry, I can" ++ apos ++ "t help with that"
             parsed := none }

/-- Classifier oracle: two unparseable responses, then one that parses. -/
def respFail2Ok : Nat → ClassifierResponse :=
  fun i =>
    if i < 2 then { status := 200, bodyText := "", content := "not json", parsed := none }
    else { status := 200, bodyText := "", content := "json"
           parsed := some (.obj [("max", .int 2)]) }

/-- Classifier oracle: a response parsing to an assessment with max 8 and
a comment. -/
def respObj8 : Nat → ClassifierResponse :=
  fun _ => { status := 200, bodyText := "", content := "json"
             parsed := some (.obj [("max", .int 8), ("comment", .str "likely scam (8)")]) }

/-- Classifier oracle: a response parsing to the bare JSON string
"flagged" (truthy, not an object). -/
def respStr : Nat → ClassifierResponse :=
  fun _ => { status := 200, bodyText := "", content := "str"
             parsed := some (.str "flagged") }

/-! ### Helper lemmas -/

theorem scoreFrom_error (resp : Nat → ClassifierResponse) (fuel i : Nat)
    (h : (resp i).status ≠ 200) :
    scoreFrom resp (fuel + 1) i = (.str ("Error: " ++ (resp i).bodyText), 1) := by
  simp [scoreFrom, bne_iff_ne, h]

theorem scoreFrom_ok (resp : Nat → ClassifierResponse) (fuel i : Nat) (v : PyJson)
    (h200 : (resp i).status = 200) (hp : (resp i).parsed = some v) :
    scoreFrom resp (fuel + 1) i = (v, 1) := by
  simp [scoreFrom, h200, hp]

theorem scoreFrom_refusal (resp : Nat → ClassifierResponse) (fuel i : Nat)
    (h200 : (resp i).status = 200) (hp : (resp i).parsed = none)
    (hr : refusalHit (resp i).content = true) :
    scoreFrom resp (fuel + 1) i = (refusalAssessment (resp i).content, 1) := by
  simp [scoreFrom, h200, hp, hr]

theorem scoreFrom_retry (resp : Nat → ClassifierResponse) (fuel i : Nat)
    (h200 : (resp i).status = 200) (hp : (resp i).parsed = none)
    (hr : refusalHit (resp i).content = false) :
    scoreFrom resp (fuel + 1) i
      = ((scoreFrom resp fuel (i + 1)).1, (scoreFrom resp fuel (i + 1)).2 + 1) := by
  simp [scoreFrom, h200, hp, hr]

theorem scoreFrom_calls_le (resp : Nat → ClassifierResponse) :
    ∀ fuel i, (scoreFrom resp fuel i).2 ≤ fuel := by
  intro fuel
  induction fuel with
  | zero => intro i; simp [scoreFrom]
  | succ f ih =>
    intro i
    by_cases h200 : (resp i).status = 200
    · cases hp : (resp i).parsed with
      | some v => rw [scoreFrom_ok resp f i v h200 hp]; exact Nat.succ_le_succ (Nat.zero_le f)
      | none =>
        cases hr : refusalHit (resp i).content with
        | true =>
          rw [scoreFrom_refusal resp f i h200 hp hr]
          exact Nat.succ_le_succ (Nat.zero_le f)
        | false =>
          rw [scoreFrom_retry resp f i h200 hp hr]
          exact Nat.succ_le_succ (ih (i + 1))
    · rw [scoreFrom_error resp f i h200]
      exact Nat.succ_le_succ (Nat.zero_le f)

theorem scoreGate_eq_not_bypass (snap : Snapshot) (mxid s : String) (l : Int) :
    scoreGate snap mxid s l = !(bypassCheck snap mxid s l) := by
  simp only [scoreGate, bypassCheck, Bool.not_or, bne]
  cases snap.admins.contains s <;> cases s == mxid <;>
    by_cases hl : snap.uncensor_pl ≤ l <;>
      simp [hl, Int.not_le.mp, Int.not_le, Int.not_lt.mpr, Int.not_lt]

theorem reaches_scoring (st : BotState) (env : RoomEnv) (evt : MsgEvent)
    (mfo : Bool) (resp : Nat → ClassifierResponse)
    (hg : scoreGate st.snap st.mxid evt.sender
      (env.pl.get_user_level evt.sender) = true)
    (hf : st.snap.enable_msgtype_filter = false
      ∨ is_message_allowed st.live evt = true)
    (hm : evt.isMediaContent = false)
    (hmem : env.botIsMember = true)
    (hraise : env.permCheckRaises = false) :
    analyze_message st env evt mfo resp
      = handleScore st [Action.markRead, Action.scorerCall]
          (decide (env.pl.redact ≤ botLevel env.pl st.mxid))
          [("redact", PermDetail.mk (decide (env.pl.redact ≤ botLevel env.pl st.mxid))
              env.pl.redact (botLevel env.pl st.mxid))]
          ((ai_analyze st.live evt mfo resp).1) evt := by
  have hfilter : (!(bypassCheck st.snap st.mxid evt.sender
        (env.pl.get_user_level evt.sender))
      && st.snap.enable_msgtype_filter
      && !(is_message_allowed st.live evt)) = false := by
    rcases hf with hf | hf <;> simp [hf]
  simp only [analyze_message, hfilter, Bool.false_eq_true, if_false, hm,
    Bool.false_and, hg, if_true]
  simp only [scoringStage, runPermCheck, hraise, Bool.false_eq_true, if_false,
    check_bot_permissions, hmem, Bool.not_true]
  simp only [permission_requirements, List.filterMap, List.lookup, beq_self_eq_true,
    if_true, List.isEmpty_cons, List.nil_append]
  by_cases hperm : env.pl.redact ≤ botLevel env.pl st.mxid
  · simp [hperm, List.filter]
  · simp [hperm, List.filter]

theorem newjoin_mem_mono (snap : Snapshot) (w : List (String × String))
    (e : JoinEvent) (k : String × String) (h : k ∈ w) :
    k ∈ (newjoin snap w e).1 := by
  unfold newjoin
  by_cases hw : (e.room, e.sender) ∈ w <;>
    by_cases hn : snap.enable_join_notice <;>
      simp [hw, hn, h, List.mem_cons]

theorem joinNoticeCount_of_mem (snap : Snapshot) (evts : List JoinEvent)
    (k : String × String) :
    ∀ w, k ∈ w → joinNoticeCount snap w evts k = 0 := by
  induction evts with
  | nil => intro w _; rfl
  | cons e es ih =>
    intro w hk
    by_cases he : (e.room, e.sender) = k
    · have hw : (e.room, e.sender) ∈ w := he ▸ hk
      have hnj : newjoin snap w e = (w, []) := by simp [newjoin, hw]
      simp only [joinNoticeCount, hnj, ne_eq, not_true_eq_false, and_false, if_false,
        Nat.zero_add]
      exact ih w hk
    · simp only [joinNoticeCount, he, false_and, if_false, Nat.zero_add]
      exact ih _ (newjoin_mem_mono snap w e k hk)

theorem joinNoticeCount_le_one (snap : Snapshot) (evts : List JoinEvent)
    (k : String × String) :
    ∀ w, joinNoticeCount snap w evts k ≤ 1 := by
  induction evts with
  | nil => intro w; exact Nat.zero_le 1
  | cons e es ih =>
    intro w
    by_cases he : (e.room, e.sender) = k
    · by_cases hw : (e.room, e.sender) ∈ w
      · have hnj : newjoin snap w e = (w, []) := by simp [newjoin, hw]
        simp only [joinNoticeCount, hnj, ne_eq, not_true_eq_false, and_false, if_false,
          Nat.zero_add]
        exact ih w
      · have hmem : k ∈ (newjoin snap w e).1 := by
          unfold newjoin
          by_cases hn : snap.enable_join_notice <;>
            simp [hw, hn, ← he, List.mem_cons]
        have hrest : joinNoticeCount snap (newjoin snap w e).1 es k = 0 :=
          joinNoticeCount_of_mem snap es k _ hmem
        simp only [joinNoticeCount, hrest, Nat.add_zero]
        split <;> omega
    · simp only [joinNoticeCount, he, false_and, if_false, Nat.zero_add]
      exact ih _

theorem handleScore_obj (st : BotState) (acts : List Action) (hperm : Bool)
    (pd : List (String × PermDetail)) (evt : MsgEvent) (m : Int) (c : String) :
    handleScore st acts hperm pd (.obj [("max", .int m), ("comment", .str c)]) evt
      = if st.snap.ai_mod_threshold ≤ m then
          (if hperm then
            PipeResult.mk (acts ++ [Action.redact evt.room evt.eventId c]) none
          else
            match pd.lookup "redact" with
            | none => PipeResult.mk acts (some (.keyError "redact"))
            | some d =>
              PipeResult.mk
                (acts ++ [Action.reply (replyText c d.required_level d.bot_level)])
                none)
        else PipeResult.mk acts none := by
  simp only [handleScore, truthy, pyGet, pySubscript, pyGeInt, lookupKey,
    pyStrRender, List.isEmpty_cons, Bool.not_true, Bool.false_eq_true, if_false]
  norm_num
  by_cases hth : st.snap.ai_mod_threshold ≤ m <;>
    by_cases hb : hperm = true <;>
      simp [hth, hb]

/-! ### Claim theorems -/

/-- Claim C1 is contradicted by the code on its HTTP-failure half: when the
classifier answers with a non-200 status, ai_analyze returns the string
"Error: body"; that string is truthy, so the `if not score` guard of
analyze_message does not catch it, and the subsequent `score.get` call
raises an AttributeError that propagates out of the handler.  This theorem
evaluates the pipeline at such an input (first conjunct: an HTTP 500
answer yields a propagating AttributeError with no enforcement action and
nothing sent to the room) and, for contrast, at the parse-exhaustion input,
which IS recovered as the claim describes (second conjunct). -/
theorem c1_http_error_escapes_pipeline :
    analyze_message stA envA evtText true resp500
      = PipeResult.mk [Action.markRead, Action.scorerCall]
          (some (.attributeError "get"))
    ∧ analyze_message stA envA evtText true respFail
      = PipeResult.mk [Action.markRead, Action.scorerCall] none :=
  ⟨by decide, by decide⟩

/-- Claim C2: when the sender is in the snapshot admin set, or has room
privilege at least the uncensor threshold, or is the moderator account
itself, analyze_message performs no type-filter redaction and never
invokes the content scorer — in fact its action trace is empty and no
exception escapes. -/
theorem c2_privileged_bypass (st : BotState) (env : RoomEnv) (evt : MsgEvent)
    (mfo : Bool) (resp : Nat → ClassifierResponse)
    (hb : bypassCheck st.snap st.mxid evt.sender
      (env.pl.get_user_level evt.sender) = true) :
    (analyze_message st env evt mfo resp).actions.any (fun a => a.isScorerCall) = false
    ∧ (analyze_message st env evt mfo resp).actions.any (fun a => a.isRedact) = false
    ∧ analyze_message st env evt mfo resp = PipeResult.mk [] none := by
  have hgate : scoreGate st.snap st.mxid evt.sender
      (env.pl.get_user_level evt.sender) = false := by
    rw [scoreGate_eq_not_bypass, hb]; rfl
  have key : analyze_message st env evt mfo resp = PipeResult.mk [] none := by
    simp only [analyze_message, hb, Bool.not_true, Bool.false_and,
      Bool.false_eq_true, if_false, hgate]
    split <;> rfl
  exact ⟨by rw [key]; rfl, by rw [key]; rfl, key⟩

theorem c2_witness :
    analyze_message stA envA evtAdmin true respFail = PipeResult.mk [] none :=
  (c2_privileged_bypass stA envA evtAdmin true respFail (by decide)).2.2

/-- Claim C3: a 200 response whose body fails strict JSON parsing but
contains a refusal phrase (case-insensitively) makes ai_analyze return
after that single call, with the synthesized assessment
max 10 / comment "LLM indicated content blocking" / analysis the raw
text / categories unsafe 10. -/
theorem c3_refusal_short_circuit (live : Config) (evt : MsgEvent) (mfo : Bool)
    (resp : Nat → ClassifierResponse)
    (hm : evt.isMediaContent = false) (hk : msgtypeIsMediaKind evt.msgtype = false)
    (h200 : (resp 0).status = 200) (hpn : (resp 0).parsed = none)
    (hr : refusalHit (resp 0).content = true) :
    ai_analyze live evt mfo resp
      = (.obj [("max", .int 10),
               ("comment", .str "LLM indicated content blocking"),
               ("analysis", .str (resp 0).content),
               ("categories", .obj [("unsafe", .int 10)])], 1) := by
  have hE : ai_analyze live evt mfo resp = scoreFrom resp 3 0 := by
    simp [ai_analyze, hm, hk]
  rw [hE]
  exact scoreFrom_refusal resp 2 0 h200 hpn hr

theorem c3_witness :
    ai_analyze cfg0 evtText true respRefuse
      = (.obj [("max", .int 10),
               ("comment", .str "LLM indicated content blocking"),
               ("analysis", .str ("Sorry, I can" ++ apos ++ "t help with that")),
               ("categories", .obj [("unsafe", .int 10)])], 1) :=
  c3_refusal_short_circuit cfg0 evtText true respRefuse rfl rfl rfl rfl (by decide)

/-- Claim C4: ai_analyze makes at most 3 classifier calls; when the first
k responses (k < 3) fail to parse with no refusal phrase and response k
parses to v, the result is v with exactly k+1 calls (in particular,
malformed twice then valid on the third call gives the parsed assessment
with exactly 3 calls); when all 3 responses fail to parse with no refusal
phrase, the result is null with 3 calls. -/
theorem c4_attempt_cap_and_first_parse (live : Config) (evt : MsgEvent) (mfo : Bool)
    (resp : Nat → ClassifierResponse)
    (hm : evt.isMediaContent = false) (hk : msgtypeIsMediaKind evt.msgtype = false) :
    (ai_analyze live evt mfo resp).2 ≤ 3
    ∧ (∀ k, k < 3 → (∀ i, i < k → parseFailNoRefusal (resp i)) →
        ∀ v, (resp k).status = 200 → (resp k).parsed = some v →
          ai_analyze live evt mfo resp = (v, k + 1))
    ∧ ((∀ i, i < 3 → parseFailNoRefusal (resp i)) →
        ai_analyze live evt mfo resp = (.null, 3)) := by
  have hE : ai_analyze live evt mfo resp = scoreFrom resp 3 0 := by
    simp [ai_analyze, hm, hk]
  refine ⟨?_, ?_, ?_⟩
  · rw [hE]
    exact scoreFrom_calls_le resp 3 0
  · intro k hk3 hfail v h200 hp
    rw [hE]
    interval_cases k
    · exact scoreFrom_ok resp 2 0 v h200 hp
    · obtain ⟨f0a, f0b, f0c⟩ := hfail 0 (by omega)
      have s30 : scoreFrom resp 3 0
          = ((scoreFrom resp 2 1).1, (scoreFrom resp 2 1).2 + 1) :=
        scoreFrom_retry resp 2 0 f0a f0b f0c
      have s21 : scoreFrom resp 2 1 = (v, 1) := scoreFrom_ok resp 1 1 v h200 hp
      rw [s30, s21]
    · obtain ⟨f0a, f0b, f0c⟩ := hfail 0 (by omega)
      obtain ⟨f1a, f1b, f1c⟩ := hfail 1 (by omega)
      have s30 : scoreFrom resp 3 0
          = ((scoreFrom resp 2 1).1, (scoreFrom resp 2 1).2 + 1) :=
        scoreFrom_retry resp 2 0 f0a f0b f0c
      have s21 : scoreFrom resp 2 1
          = ((scoreFrom resp 1 2).1, (scoreFrom resp 1 2).2 + 1) :=
        scoreFrom_retry resp 1 1 f1a f1b f1c
      have s12 : scoreFrom resp 1 2 = (v, 1) := scoreFrom_ok resp 0 2 v h200 hp
      rw [s30, s21, s12]
  · intro hfail
    obtain ⟨f0a, f0b, f0c⟩ := hfail 0 (by omega)
    obtain ⟨f1a, f1b, f1c⟩ := hfail 1 (by omega)
    obtain ⟨f2a, f2b, f2c⟩ := hfail 2 (by omega)
    have s30 : scoreFrom resp 3 0
        = ((scoreFrom resp 2 1).1, (scoreFrom resp 2 1).2 + 1) :=
      scoreFrom_retry resp 2 0 f0a f0b f0c
    have s21 : scoreFrom resp 2 1
        = ((scoreFrom resp 1 2).1, (scoreFrom resp 1 2).2 + 1) :=
      scoreFrom_retry resp 1 1 f1a f1b f1c
    have s12 : scoreFrom resp 1 2
        = ((scoreFrom resp 0 3).1, (scoreFrom resp 0 3).2 + 1) :=
      scoreFrom_retry resp 0 2 f2a f2b f2c
    rw [hE, s30, s21, s12]
    rfl

theorem c4_witness :
    ai_analyze cfg0 evtText true respFail2Ok = (.obj [("max", .int 2)], 3)
    ∧ ai_analyze cfg0 evtText true respFail = (.null, 3) := by
  constructor
  · refine (c4_attempt_cap_and_first_parse cfg0 evtText true respFail2Ok rfl rfl).2.1
      2 (by omega) ?_ (.obj [("max", .int 2)]) rfl rfl
    intro i hi
    refine ⟨?_, ?_, ?_⟩
    · simp only [respFail2Ok, if_pos hi]
    · simp only [respFail2Ok, if_pos hi]
    · simp only [respFail2Ok, if_pos hi]
      decide
  · refine (c4_attempt_cap_and_first_parse cfg0 evtText true respFail rfl rfl).2.2 ?_
    intro i _
    exact ⟨rfl, rfl, rfl⟩

/-- Claim C5 is contradicted by the code at HTTP status 201: the source
tests `response.status != 200`, not membership of the 2xx range, so a 201
response whose assistant text parses to valid JSON still yields the
immediate error string rather than a parse attempt. -/
theorem c5_counterexample_status_201 :
    200 ≤ (resp201 0).status ∧ (resp201 0).status < 300
    ∧ (resp201 0).parsed = some (.obj [])
    ∧ ai_analyze cfg0 evtText true resp201 = (.str "Error: created", 1)
    ∧ PyJson.str "Error: created" ≠ PyJson.obj [] :=
  ⟨by decide, by decide, rfl, rfl, fun h => PyJson.noConfusion h⟩

/-- Claim C5 as amended: ai_analyze returns the error string immediately,
with exactly one HTTP call, precisely when the first response status is
not 200 (rather than: not in the 2xx range); only a status equal to 200
proceeds to extract the assistant text and attempt JSON parsing. -/
theorem c5_error_string_iff_status_ne_200 (live : Config) (evt : MsgEvent)
    (mfo : Bool) (resp : Nat → ClassifierResponse)
    (hm : evt.isMediaContent = false) (hk : msgtypeIsMediaKind evt.msgtype = false) :
    ((resp 0).status ≠ 200 →
      ai_analyze live evt mfo resp = (.str ("Error: " ++ (resp 0).bodyText), 1))
    ∧ (∀ v, (resp 0).status = 200 → (resp 0).parsed = some v →
      ai_analyze live evt mfo resp = (v, 1)) := by
  have hE : ai_analyze live evt mfo resp = scoreFrom resp 3 0 := by
    simp [ai_analyze, hm, hk]
  constructor
  · intro h
    rw [hE]
    exact scoreFrom_error resp 2 0 h
  · intro v h200 hp
    rw [hE]
    exact scoreFrom_ok resp 2 0 v h200 hp

theorem c5_witness :
    ai_analyze cfg0 evtText true resp500 = (.str "Error: boom", 1) :=
  (c5_error_string_iff_status_ne_200 cfg0 evtText true resp500 rfl rfl).1 (by decide)

/-- Claim C6: for a scored message from a non-privileged sender whose
assessment parses to an object with integer max m (and a comment), the
enforcement path (a redaction attempt or the explanatory reply) is taken
exactly when m is at least the configured threshold; the boundary is
inclusive, so max equal to the threshold triggers enforcement. -/
theorem c6_enforcement_iff_threshold (st : BotState) (env : RoomEnv) (evt : MsgEvent)
    (mfo : Bool) (resp : Nat → ClassifierResponse) (m : Int) (c : String)
    (hg : scoreGate st.snap st.mxid evt.sender
      (env.pl.get_user_level evt.sender) = true)
    (hf : st.snap.enable_msgtype_filter = false
      ∨ is_message_allowed st.live evt = true)
    (hm : evt.isMediaContent = false) (hk : msgtypeIsMediaKind evt.msgtype = false)
    (hmem : env.botIsMember = true) (hraise : env.permCheckRaises = false)
    (h200 : (resp 0).status = 200)
    (hp : (resp 0).parsed = some (.obj [("max", .int m), ("comment", .str c)])) :
    (analyze_message st env evt mfo resp).actions.any
        (fun a => a.isRedact || a.isReply) = true
      ↔ st.snap.ai_mod_threshold ≤ m := by
  have hE : ai_analyze st.live evt mfo resp = scoreFrom resp 3 0 := by
    simp [ai_analyze, hm, hk]
  have h1 : scoreFrom resp 3 0 = (.obj [("max", .int m), ("comment", .str c)], 1) :=
    scoreFrom_ok resp 2 0 _ h200 hp
  have hscore : (ai_analyze st.live evt mfo resp).1
      = .obj [("max", .int m), ("comment", .str c)] := by rw [hE, h1]
  rw [reaches_scoring st env evt mfo resp hg hf hm hmem hraise, hscore,
    handleScore_obj]
  by_cases hth : st.snap.ai_mod_threshold ≤ m
  · by_cases hpm : env.pl.redact ≤ botLevel env.pl st.mxid
    · simp [hth, hpm, Action.isRedact, Action.isReply]
    · simp [hth, hpm, Action.isRedact, Action.isReply, List.lookup]
  · simp [hth, Action.isRedact, Action.isReply, Action.isScorerCall]

theorem c6_witness :
    (analyze_message stA envA evtText true respObj8).actions.any
        (fun a => a.isRedact || a.isReply) = true :=
  (c6_enforcement_iff_threshold stA envA evtText true respObj8 8 "likely scam (8)"
    (by decide) (Or.inl rfl) rfl rfl rfl rfl rfl rfl).mpr (by decide)

/-- Claim C7: when a non-privileged message scores at or above the
threshold and the capability check reported that the bot lacks the redact
capability, analyze_message replies to the event with a notice that
contains both the required redaction power level and the actual bot
level, and issues no redaction. -/
theorem c7_unenforceable_reply_contains_levels (st : BotState) (env : RoomEnv)
    (evt : MsgEvent) (mfo : Bool) (resp : Nat → ClassifierResponse)
    (m : Int) (c : String)
    (hg : scoreGate st.snap st.mxid evt.sender
      (env.pl.get_user_level evt.sender) = true)
    (hf : st.snap.enable_msgtype_filter = false
      ∨ is_message_allowed st.live evt = true)
    (hm : evt.isMediaContent = false) (hk : msgtypeIsMediaKind evt.msgtype = false)
    (hmem : env.botIsMember = true) (hraise : env.permCheckRaises = false)
    (hlow : botLevel env.pl st.mxid < env.pl.redact)
    (h200 : (resp 0).status = 200)
    (hp : (resp 0).parsed = some (.obj [("max", .int m), ("comment", .str c)]))
    (hthr : st.snap.ai_mod_threshold ≤ m) :
    analyze_message st env evt mfo resp
      = PipeResult.mk [Action.markRead, Action.scorerCall,
          Action.reply (replyText c env.pl.redact (botLevel env.pl st.mxid))] none
    ∧ (∃ x y z, replyText c env.pl.redact (botLevel env.pl st.mxid)
        = x ++ toString env.pl.redact ++ y
            ++ toString (botLevel env.pl st.mxid) ++ z)
    ∧ (analyze_message st env evt mfo resp).actions.all
        (fun a => !a.isRedact) = true := by
  have hE : ai_analyze st.live evt mfo resp = scoreFrom resp 3 0 := by
    simp [ai_analyze, hm, hk]
  have h1 : scoreFrom resp 3 0 = (.obj [("max", .int m), ("comment", .str c)], 1) :=
    scoreFrom_ok resp 2 0 _ h200 hp
  have hscore : (ai_analyze st.live evt mfo resp).1
      = .obj [("max", .int m), ("comment", .str c)] := by rw [hE, h1]
  have hpm : ¬ (env.pl.redact ≤ botLevel env.pl st.mxid) := not_le.mpr hlow
  have key : analyze_message st env evt mfo resp
      = PipeResult.mk [Action.markRead, Action.scorerCall,
          Action.reply (replyText c env.pl.redact (botLevel env.pl st.mxid))] none := by
    rw [reaches_scoring st env evt mfo resp hg hf hm hmem hraise, hscore,
      handleScore_obj]
    simp [hthr, hpm, List.lookup]
  refine ⟨key,
    ⟨"I would have redacted this message (" ++ c
        ++ "), but I need a power level of ",
      " or higher to do so (currently ", ").", ?_⟩,
    by rw [key]; rfl⟩
  simp [replyText, String.append_assoc]

theorem c7_witness :
    analyze_message stA envA evtText true respObj8
      = PipeResult.mk [Action.markRead, Action.scorerCall,
          Action.reply (replyText "likely scam (8)" 50 0)] none :=
  (c7_unenforceable_reply_contains_levels stA envA evtText true respObj8
    8 "likely scam (8)" (by decide) (Or.inl rfl) rfl rfl rfl rfl (by decide)
    rfl rfl (by decide)).1

/-- Claim C8: starting from the empty welcomed-joins set, any sequence of
join events triggers at most one join notice per (room, user) key; the
first join for an unseen key records the key and sends the notice exactly
when join notices are enabled, and every join for an already-seen key
leaves the set unchanged and sends nothing. -/
theorem c8_join_notice_once (snap : Snapshot) (evts : List JoinEvent)
    (k : String × String) :
    joinNoticeCount snap [] evts k ≤ 1
    ∧ (∀ (w : List (String × String)) (e : JoinEvent), (e.room, e.sender) ∉ w →
        (e.room, e.sender) ∈ (newjoin snap w e).1
        ∧ (snap.enable_join_notice = true →
            (newjoin snap w e).2 = [Action.notice e.room (noticeText snap)])
        ∧ (snap.enable_join_notice = false → (newjoin snap w e).2 = []))
    ∧ (∀ (w : List (String × String)) (e : JoinEvent), (e.room, e.sender) ∈ w →
        newjoin snap w e = (w, [])) := by
  refine ⟨joinNoticeCount_le_one snap evts k [], ?_, ?_⟩
  · intro w e hw
    refine ⟨?_, ?_, ?_⟩
    · unfold newjoin
      by_cases hn : snap.enable_join_notice <;> simp [hw, hn, List.mem_cons]
    · intro hn
      simp [newjoin, hw, hn]
    · intro hn
      simp [newjoin, hw, hn]
  · intro w e hw
    simp [newjoin, hw]

theorem c8_witness :
    joinNoticeCount (mkSnapshot cfg0) []
      [JoinEvent.mk "!r:hs" "@u:hs", JoinEvent.mk "!r:hs" "@u:hs"]
      ("!r:hs", "@u:hs") ≤ 1
    ∧ newjoin (mkSnapshot cfg0) [("!r:hs", "@u:hs")] (JoinEvent.mk "!r:hs" "@u:hs")
      = ([("!r:hs", "@u:hs")], []) :=
  ⟨(c8_join_notice_once (mkSnapshot cfg0)
      [JoinEvent.mk "!r:hs" "@u:hs", JoinEvent.mk "!r:hs" "@u:hs"]
      ("!r:hs", "@u:hs")).1,
   (c8_join_notice_once (mkSnapshot cfg0) [] ("!r:hs", "@u:hs")).2.2
      [("!r:hs", "@u:hs")] (JoinEvent.mk "!r:hs" "@u:hs")
      (List.mem_singleton.mpr rfl)⟩

/-- Claim C9 is contradicted by the code: analyze_message consults the
admin set and uncensor threshold snapshotted into instance fields by
start, not the live configuration.  Concretely, after a reload that adds
the sender to the live admin set, the pipeline still invokes the scorer
for that sender (third conjunct, stale snapshot), whereas a snapshot
rebuilt from the reloaded configuration would bypass entirely (fourth
conjunct).  The spec mandates live reads and calls the snapshot variant a
defect, so this is recorded as a code bug rather than a spec error. -/
theorem c9_bypass_reads_snapshot_not_live :
    stStale.live.admins = some ["@admin:hs", "@u:hs"]
    ∧ stStale.snap.admins = ["@admin:hs"]
    ∧ (analyze_message stStale envA evtText true respFail).actions.any
        (fun a => a.isScorerCall) = true
    ∧ analyze_message stFresh envA evtText true respFail = PipeResult.mk [] none :=
  ⟨rfl, rfl, by decide, by decide⟩

/-- Claim C10 predicts an unhandled KeyError for every truthy parsed value
lacking a max key; at the truthy non-object parsed value "flagged" the
pipeline instead raises AttributeError at the earlier score.get call (the
score max lookup is never reached), so the claim as stated is false. -/
theorem c10_counterexample_truthy_nonobject :
    truthy (.str "flagged") = true
    ∧ hasKey (.str "flagged") "max" = false
    ∧ analyze_message stA envA evtText true respStr
        = PipeResult.mk [Action.markRead, Action.scorerCall]
            (some (.attributeError "get"))
    ∧ PyError.attributeError "get" ≠ PyError.keyError "max" :=
  ⟨rfl, rfl, by decide, by decide⟩

/-- Claim C10 as amended: ai_analyze performs no schema validation (the
first parsed JSON value is returned as the assessment, whatever it is);
downstream, a falsy parsed value is silently treated as a failed score; a
truthy parsed object lacking the max key raises an unhandled KeyError at
the score max lookup; and a truthy parsed non-object raises an unhandled
AttributeError already at the preceding score.get call. -/
theorem c10_no_schema_validation (st : BotState) (acts : List Action)
    (hperm : Bool) (pd : List (String × PermDetail)) (evt : MsgEvent) :
    (∀ (live : Config) (e2 : MsgEvent) (mfo : Bool)
        (resp : Nat → ClassifierResponse) (v : PyJson),
       e2.isMediaContent = false → msgtypeIsMediaKind e2.msgtype = false →
       (resp 0).status = 200 → (resp 0).parsed = some v →
       (ai_analyze live e2 mfo resp).1 = v)
    ∧ (∀ v, truthy v = false →
        handleScore st acts hperm pd v evt = PipeResult.mk acts none)
    ∧ (∀ kvs, kvs ≠ [] → lookupKey kvs "max" = none →
        handleScore st acts hperm pd (.obj kvs) evt
          = PipeResult.mk acts (some (.keyError "max")))
    ∧ (∀ v, truthy v = true → isObj v = false →
        handleScore st acts hperm pd v evt
          = PipeResult.mk acts (some (.attributeError "get"))) := by
  refine ⟨?_, ?_, ?_, ?_⟩
  · intro live e2 mfo resp v hm2 hk2 h200 hp
    have hE : ai_analyze live e2 mfo resp = scoreFrom resp 3 0 := by
      simp [ai_analyze, hm2, hk2]
    have h1 : scoreFrom resp 3 0 = (v, 1) := scoreFrom_ok resp 2 0 v h200 hp
    rw [hE, h1]
  · intro v hv
    simp [handleScore, hv]
  · intro kvs hne hlk
    cases kvs with
    | nil => exact absurd rfl hne
    | cons a t => simp [handleScore, truthy, pyGet, pySubscript, hlk]
  · intro v hv hobj
    cases v <;> simp_all [handleScore, truthy, pyGet, isObj]

theorem c10_witness :
    handleScore stA [] false [] (.obj [("analysis", .int 1)]) evtText
      = PipeResult.mk [] (some (.keyError "max")) :=
  (c10_no_schema_validation stA [] false [] evtText).2.2.1
    [("analysis", .int 1)] (List.cons_ne_nil _ _) rfl

end AIMod
